import Mathlib

/-!
Verification of the rclcpp name-remapping slice.

The repository ships `include/rclcpp/remapping.hpp`, which declares the
abstract `Remapping` rule class (its member functions have no bodies in the
repository: they are pure virtual or left to an absent translation unit), and
`src/rclcpp/detail/rmw_implementation_specific_subscription_payload.cpp`,
which implements the default transport-options hook.  The rule and resolver
behaviour is therefore modelled from the specification; the hook is
translated directly from the source.
-/

/-- Modelled from the spec: the `kind` enumeration of a remapping rule
(spec section 3, data model); the repository only declares the abstract
`Remapping` base class and names the concrete variants in comments. -/
inductive RuleKind
  | NodeName
  | Namespace
  | Topic
  | Service
deriving DecidableEq

/-- Modelled from the spec: the fields of a `Remapping` rule (spec section 3).
The repository hides the fields behind `class Impl` (an implementation
pointer) whose definition is missing from the sources.  `replacement = none`
encodes the default-constructed "null rule", whose remap result is the
identity on the candidate; a rule built from a structured source record
always stores `some s` with `s` nonempty. -/
structure Remapping where
  scope_node_name : Option String
  match_pattern : Option String
  replacement : Option String
  kind : RuleKind
deriving DecidableEq

/-- Modelled from the spec: default construction (spec sections 3 and 4.1)
yields the universal-identity rule; the defaulted constructor
`Remapping::Remapping()` has no body in the repository. -/
def Remapping.defaultRule (kind : RuleKind) : Remapping :=
  { scope_node_name := none
    match_pattern := none
    replacement := none
    kind := kind }

/-- Modelled from the spec: `applies_to_node_name` (spec section 4.1) is true
iff the rule's node-name scope is absent or equals the candidate exactly; the
member is pure virtual in `remapping.hpp`. -/
def Remapping.applies_to_node_name (r : Remapping) (candidate : String) : Bool :=
  match r.scope_node_name with
  | none => true
  | some scope => scope == candidate

/-- Modelled from the spec: `matches_name` (spec section 4.1) is exact string
match against the match pattern, and unconditionally true when the rule has
no match string; the member is pure virtual in `remapping.hpp`. -/
def Remapping.matches_name (r : Remapping) (candidate : String) : Bool :=
  match r.match_pattern with
  | none => true
  | some pat => pat == candidate

/-- Modelled from the spec: `is_global` (spec section 3) holds iff the
node-name scope is absent; declared without a body in `remapping.hpp`. -/
def Remapping.is_global (r : Remapping) : Bool :=
  r.scope_node_name.isNone

/-- Modelled from the spec: `get_node_name` (spec section 4.1) returns the
scoping node name or signals absence; declared without a body in
`remapping.hpp`. -/
def Remapping.get_node_name (r : Remapping) : Option String :=
  r.scope_node_name

/-- Modelled from the spec: `get_match_string` (spec section 4.1) returns the
match pattern or signals absence; declared without a body in
`remapping.hpp`. -/
def Remapping.get_match_string (r : Remapping) : Option String :=
  r.match_pattern

/-- Modelled from the spec: `get_replacement_string` (spec section 4.1) never
signals absence; for the default-constructed null rule, whose replacement is
the identity, the empty string stands in.  Declared without a body in
`remapping.hpp`. -/
def Remapping.get_replacement_string (r : Remapping) : Option String :=
  match r.replacement with
  | some s => some s
  | none => some ""

/-- Modelled from the spec: `remap` (spec section 4.1) returns the stored
replacement only if the supplied node name (when any) satisfies
`applies_to_node_name` and the supplied candidate name (when any) satisfies
`matches_name`, and signals absence otherwise; an absent argument means
"apply to all" / "no name to match".  The default-constructed null rule
returns the candidate name unchanged (spec section 3).  The member is pure
virtual in `remapping.hpp`. -/
def Remapping.remap (r : Remapping) (node_name name : Option String) : Option String :=
  let node_ok : Bool :=
    match node_name with
    | none => true
    | some n => r.applies_to_node_name n
  let name_ok : Bool :=
    match name with
    | none => true
    | some n => r.matches_name n
  if node_ok && name_ok then
    match r.replacement with
    | some s => some s
    | none => name
  else
    none

/-- Modelled from the spec: the structured source record (the `rcl_remap_t`
of the external rule-parsing library, spec section 6) from which a rule is
constructed; the `rcl/remap.h` header is not part of the repository. -/
structure RclRemap where
  kind : RuleKind
  node_name : Option String
  match_str : Option String
  replacement : Option String
deriving DecidableEq

/-- Modelled from the spec: construction from a structured source record
(spec section 4.1) copies its fields and fails with a construction error if
the source's replacement field is empty or absent; the constructor
`Remapping::Remapping(const rcl_remap_t &)` has no body in the repository. -/
def Remapping.ofRclRemap (src : RclRemap) : Except String Remapping :=
  match src.replacement with
  | none => .error "remap rule has no replacement"
  | some s =>
    if s = "" then
      .error "remap rule has an empty replacement"
    else
      .ok { scope_node_name := src.node_name
            match_pattern := src.match_str
            replacement := some s
            kind := src.kind }

/-- Modelled from the spec: whether construction from a source record
succeeds. -/
def RclRemap.construction_ok (src : RclRemap) : Bool :=
  match Remapping.ofRclRemap src with
  | .ok _ => true
  | .error _ => false

/-- Modelled from the spec: the data-model consistency between a rule's kind
and its match pattern (spec section 3): node-name and namespace rules carry
no match pattern, topic and service rules carry one. -/
def Remapping.kind_consistent (r : Remapping) : Prop :=
  match r.kind with
  | .NodeName => r.match_pattern = none
  | .Namespace => r.match_pattern = none
  | .Topic => r.match_pattern.isSome
  | .Service => r.match_pattern.isSome

/-- Modelled from the spec: the resolver (spec section 4.2) owns an ordered
sequence of rules; it is described by the spec but has no implementation in
the repository. -/
structure RemappingResolver where
  rules : List Remapping

/-- Modelled from the spec: the ordered scan of spec section 4.2 step 2-3,
returning the first non-absent remap result of the given rule list. -/
def RemappingResolver.scan (node_name : Option String) (candidate : String) :
    List Remapping → Option String
  | [] => none
  | r :: rest =>
    match r.remap node_name (some candidate) with
    | some s => some s
    | none => RemappingResolver.scan node_name candidate rest

/-- Modelled from the spec: resolution (spec section 4.2): filter the owned
rules to the requested kind, scan in stored order for the first non-absent
remap result, and fall back to the unchanged candidate. -/
def RemappingResolver.resolve (res : RemappingResolver) (node_name : Option String)
    (candidate : String) (kind : RuleKind) : String :=
  match RemappingResolver.scan node_name candidate
      (res.rules.filter fun r => r.kind == kind) with
  | some s => s
  | none => candidate

/-- Model of the external `rmw_subscription_options_t` record (declared in the
rmw library, outside this repository): the mutable options record handed to
the transport-options hook.  Representative fields stand in for the real
ones; the hook's behaviour does not depend on them. -/
structure RmwSubscriptionOptions where
  rmw_specific_subscription_payload : Option Nat
  ignore_local_publications : Bool
  require_unique_network_flow_endpoints : Nat
deriving DecidableEq

/-- Model of the `RMWImplementationSpecificSubscriptionPayload` receiver
object; its base-class state (declared in a header outside the given
sources) is abstracted as a single field. -/
structure RMWImplementationSpecificSubscriptionPayload where
  impl_state : Nat
deriving DecidableEq

/-- Translated from
`src/rclcpp/src/rclcpp/detail/rmw_implementation_specific_subscription_payload.cpp`:
the default `modify_rmw_subscription_options` hook.  The body only casts its
argument to `void`; in state-passing form the const receiver and the options
record come back exactly as they were. -/
def RMWImplementationSpecificSubscriptionPayload.modify_rmw_subscription_options
    (self : RMWImplementationSpecificSubscriptionPayload)
    (rmw_subscription_options : RmwSubscriptionOptions) :
    RMWImplementationSpecificSubscriptionPayload × RmwSubscriptionOptions :=
  (self, rmw_subscription_options)

/-- Claim C3: a default-constructed rule returns true from
`applies_to_node_name` and `matches_name` for every node name and every
candidate name, and its `remap` returns the candidate unchanged (identity),
not absence and not a distinct replacement. -/
theorem default_rule_identity (k : RuleKind) (node name : String) :
    (Remapping.defaultRule k).applies_to_node_name node = true ∧
    (Remapping.defaultRule k).matches_name name = true ∧
    (Remapping.defaultRule k).remap (some node) (some name) = some name ∧
    (Remapping.defaultRule k).remap none (some name) = some name :=
  ⟨rfl, rfl, rfl, rfl⟩

/-- Claim C4: `applies_to_node_name` is true iff the rule's scope is absent
or equals the candidate exactly; for the empty-string candidate it is true
for a global rule and false for a rule scoped to an actual (nonempty,
fully-qualified) node name, and it never faults (it is total). -/
theorem applies_to_node_name_spec (r : Remapping) (c : String) :
    (r.applies_to_node_name c = true ↔
      (r.scope_node_name = none ∨ r.scope_node_name = some c)) ∧
    (r.is_global = true → r.applies_to_node_name "" = true) ∧
    (∀ sc, r.scope_node_name = some sc → sc ≠ "" →
      r.applies_to_node_name "" = false) := by
  refine ⟨?_, ?_, ?_⟩
  · cases h : r.scope_node_name with
    | none => simp [Remapping.applies_to_node_name, h]
    | some sc => simp [Remapping.applies_to_node_name, h]
  · intro hg
    have h : r.scope_node_name = none := by
      unfold Remapping.is_global at hg
      exact Option.isNone_iff_eq_none.mp hg
    simp [Remapping.applies_to_node_name, h]
  · intro sc hsc hne
    simp [Remapping.applies_to_node_name, hsc]
    exact hne

/-- Claim C4, witness: a global rule accepts the empty-string candidate and
a rule scoped to "/a/b" rejects it. -/
theorem applies_to_node_name_spec_witness :
    ({ scope_node_name := none, match_pattern := some "x",
       replacement := some "y", kind := RuleKind.Topic } :
        Remapping).applies_to_node_name "" = true ∧
    ({ scope_node_name := some "/a/b", match_pattern := some "x",
       replacement := some "y", kind := RuleKind.Topic } :
        Remapping).applies_to_node_name "" = false :=
  ⟨(applies_to_node_name_spec _ "").2.1 rfl,
   (applies_to_node_name_spec _ "").2.2 "/a/b" rfl (by decide)⟩

/-- Claim C7: `is_global` holds iff the scope is absent, and `get_node_name`
signals absence exactly when `is_global` holds. -/
theorem is_global_spec (r : Remapping) :
    (r.is_global = true ↔ r.scope_node_name = none) ∧
    (r.get_node_name = none ↔ r.is_global = true) := by
  cases h : r.scope_node_name <;>
    simp [Remapping.is_global, Remapping.get_node_name, h]

/-- Claim C8: for a rule of kind NodeName or Namespace (which, by the data
model, has no match string) `matches_name` returns true unconditionally for
every candidate, never faulting; for a rule of kind Topic or Service the
predicate is exact string match against the rule's match pattern. -/
theorem matches_name_spec (r : Remapping) (c : String) (hw : r.kind_consistent) :
    ((r.kind = RuleKind.NodeName ∨ r.kind = RuleKind.Namespace) →
      r.matches_name c = true) ∧
    ((r.kind = RuleKind.Topic ∨ r.kind = RuleKind.Service) →
      ∀ p, r.match_pattern = some p → (r.matches_name c = true ↔ c = p)) := by
  constructor
  · intro hk
    have hp : r.match_pattern = none := by
      unfold Remapping.kind_consistent at hw
      rcases hk with h | h
      · rw [h] at hw
        exact hw
      · rw [h] at hw
        exact hw
    simp [Remapping.matches_name, hp]
  · intro _ p hp
    simp only [Remapping.matches_name, hp]
    constructor
    · intro h
      exact (beq_iff_eq.mp h).symm
    · intro h
      exact beq_iff_eq.mpr h.symm

/-- Claim C8, witness: a node-name rule with no match string matches any
candidate, and a topic rule with match string "chatter" matches exactly
"chatter". -/
theorem matches_name_spec_witness :
    ({ scope_node_name := none, match_pattern := none,
       replacement := some "/n2", kind := RuleKind.NodeName } :
        Remapping).matches_name "anything" = true ∧
    ({ scope_node_name := none, match_pattern := some "chatter",
       replacement := some "chatter2", kind := RuleKind.Topic } :
        Remapping).matches_name "chatter" = true :=
  ⟨(matches_name_spec
      { scope_node_name := none, match_pattern := none,
        replacement := some "/n2", kind := RuleKind.NodeName }
      "anything" rfl).1 (Or.inl rfl),
   ((matches_name_spec
      { scope_node_name := none, match_pattern := some "chatter",
        replacement := some "chatter2", kind := RuleKind.Topic }
      "chatter" rfl).2 (Or.inl rfl) "chatter" rfl).mpr rfl⟩

/-- Claim C6: constructing a rule from a structured source record whose
replacement field is empty fails with a construction error, and
`get_replacement_string` never signals absence for any rule, the
default-constructed one included. -/
theorem construction_rejects_empty_replacement :
    (∀ src : RclRemap, src.replacement = some "" →
      src.construction_ok = false) ∧
    (∀ r : Remapping, (r.get_replacement_string).isSome = true) := by
  constructor
  · intro src h
    unfold RclRemap.construction_ok Remapping.ofRclRemap
    rw [h]
    rfl
  · intro r
    unfold Remapping.get_replacement_string
    cases r.replacement <;> rfl

/-- Claim C6, witness: a topic source record with an empty replacement field
is rejected by construction. -/
theorem construction_rejects_empty_replacement_witness :
    ({ kind := RuleKind.Topic, node_name := none, match_str := some "x",
       replacement := some "" } : RclRemap).construction_ok = false :=
  construction_rejects_empty_replacement.1 _ rfl

/-- Claim C9: the default transport-options hook returns the subscription
options record unchanged: it performs no mutation on the options. -/
theorem modify_rmw_subscription_options_preserves_options
    (p : RMWImplementationSpecificSubscriptionPayload)
    (o : RmwSubscriptionOptions) :
    (p.modify_rmw_subscription_options o).2 = o :=
  rfl

/-- Claim C10: the default transport-options hook is also effect-free on its
receiver: the whole (payload, options) state is returned exactly as it was,
so the default hook is the identity. -/
theorem modify_rmw_subscription_options_is_identity
    (p : RMWImplementationSpecificSubscriptionPayload)
    (o : RmwSubscriptionOptions) :
    p.modify_rmw_subscription_options o = (p, o) :=
  rfl

/-- Claim C1, counterexample: the default-constructed null rule violates the
claim as stated.  Both match predicates hold on every input, yet `remap`
returns the candidate itself rather than the rule's (single) replacement
string: two matching queries return two different strings, and a query with
both arguments absent (conditions vacuously satisfied) signals absence even
though the rule's replacement string exists. -/
theorem remap_replacement_counterexample :
    (Remapping.defaultRule RuleKind.Topic).matches_name "a" = true ∧
    (Remapping.defaultRule RuleKind.Topic).matches_name "b" = true ∧
    (Remapping.defaultRule RuleKind.Topic).remap none (some "a") ≠
      (Remapping.defaultRule RuleKind.Topic).remap none (some "b") ∧
    (Remapping.defaultRule RuleKind.Topic).get_replacement_string = some "" ∧
    (Remapping.defaultRule RuleKind.Topic).remap none none = none := by
  refine ⟨rfl, rfl, ?_, rfl, rfl⟩
  decide

/-- Claim C1 (amended): for every rule that stores a replacement string —
any rule successfully constructed from a source record; the
default-constructed null rule instead returns the name argument itself —
`remap(node_name, name)` returns the stored replacement iff
`applies_to_node_name(node_name)` holds (when node_name is supplied) and
`matches_name(name)` holds (when name is supplied); in every other case it
signals absence (no match), not an error, and an absent argument is honored
uniformly as "apply to all" / "no name to match". -/
theorem remap_of_constructed_spec (r : Remapping) (repl : String)
    (hrep : r.replacement = some repl) (node_name name : Option String) :
    (r.remap node_name name = some repl ↔
      ((∀ n, node_name = some n → r.applies_to_node_name n = true) ∧
       (∀ n, name = some n → r.matches_name n = true))) ∧
    (r.remap node_name name = some repl ∨ r.remap node_name name = none) := by
  unfold Remapping.remap
  rw [hrep]
  cases node_name with
  | none =>
    cases name with
    | none => simp
    | some nm => cases h : r.matches_name nm <;> simp [h]
  | some nn =>
    cases name with
    | none => cases h : r.applies_to_node_name nn <;> simp [h]
    | some nm =>
      cases h1 : r.applies_to_node_name nn <;>
        cases h2 : r.matches_name nm <;>
          simp [h1, h2]

/-- Claim C1, witness: a topic rule scoped to "/ns/a" matching "chatter"
with replacement "chatter2" remaps ("/ns/a", "chatter") to "chatter2". -/
theorem remap_of_constructed_spec_witness :
    ({ scope_node_name := some "/ns/a", match_pattern := some "chatter",
       replacement := some "chatter2", kind := RuleKind.Topic } :
        Remapping).remap (some "/ns/a") (some "chatter") = some "chatter2" :=
  (remap_of_constructed_spec
      { scope_node_name := some "/ns/a", match_pattern := some "chatter",
        replacement := some "chatter2", kind := RuleKind.Topic }
      "chatter2" rfl (some "/ns/a") (some "chatter")).1.mpr
    ⟨by
      intro n hn
      injection hn with h
      subst h
      decide,
     by
      intro n hn
      injection hn with h
      subst h
      decide⟩

/-- Helper: scanning the kind-filtered list returns the first rule's result
when a matching rule of the requested kind follows a prefix of rules that
all fail to remap. -/
theorem scan_filter_of_first_match (node_name : Option String) (candidate : String)
    (kind : RuleKind) (r : Remapping) (post : List Remapping) (s : String)
    (hk : r.kind = kind) (hr : r.remap node_name (some candidate) = some s) :
    ∀ pre : List Remapping,
      (∀ x ∈ pre, x.kind = kind → x.remap node_name (some candidate) = none) →
      RemappingResolver.scan node_name candidate
        ((pre ++ r :: post).filter fun x => x.kind == kind) = some s := by
  intro pre
  induction pre with
  | nil =>
    intro _
    rw [List.nil_append, List.filter_cons, if_pos (by simp [hk])]
    unfold RemappingResolver.scan
    rw [hr]
  | cons a t ih =>
    intro h
    rw [List.cons_append, List.filter_cons]
    by_cases ha : a.kind = kind
    · rw [if_pos (by simp [ha])]
      unfold RemappingResolver.scan
      rw [h a (List.mem_cons_self a t) ha]
      exact ih fun x hx hxk => h x (List.mem_cons_of_mem a hx) hxk
    · rw [if_neg (by simp [ha])]
      exact ih fun x hx hxk => h x (List.mem_cons_of_mem a hx) hxk

/-- Helper: scanning the kind-filtered list yields nothing when every rule
of the requested kind fails to remap the candidate. -/
theorem scan_filter_none (node_name : Option String) (candidate : String)
    (kind : RuleKind) :
    ∀ rules : List Remapping,
      (∀ x ∈ rules, x.kind = kind → x.remap node_name (some candidate) = none) →
      RemappingResolver.scan node_name candidate
        (rules.filter fun x => x.kind == kind) = none := by
  intro rules
  induction rules with
  | nil =>
    intro _
    rfl
  | cons a t ih =>
    intro h
    rw [List.filter_cons]
    by_cases ha : a.kind = kind
    · rw [if_pos (by simp [ha])]
      unfold RemappingResolver.scan
      rw [h a (List.mem_cons_self a t) ha]
      exact ih fun x hx hxk => h x (List.mem_cons_of_mem a hx) hxk
    · rw [if_neg (by simp [ha])]
      exact ih fun x hx hxk => h x (List.mem_cons_of_mem a hx) hxk

/-- Claim C2: among the rules of the requested kind, the first rule in
stored order whose remap is non-absent supplies the resolution result; every
later rule — however specific — is ignored, so an earlier-declared rule
takes strict precedence over any later one. -/
theorem resolve_first_match_wins (pre post : List Remapping) (r : Remapping)
    (node_name : Option String) (candidate s : String) (kind : RuleKind)
    (hk : r.kind = kind)
    (hr : r.remap node_name (some candidate) = some s)
    (hpre : ∀ x ∈ pre, x.kind = kind → x.remap node_name (some candidate) = none) :
    RemappingResolver.resolve ⟨pre ++ r :: post⟩ node_name candidate kind = s := by
  simp only [RemappingResolver.resolve]
  rw [scan_filter_of_first_match node_name candidate kind r post s hk hr pre hpre]

/-- Claim C2, witness: with ordered topic rules ["x" to "y", "x" to "z"],
resolving "x" yields "y", never "z". -/
theorem resolve_first_match_wins_witness :
    RemappingResolver.resolve
      ⟨[{ scope_node_name := none, match_pattern := some "x",
          replacement := some "y", kind := RuleKind.Topic },
        { scope_node_name := none, match_pattern := some "x",
          replacement := some "z", kind := RuleKind.Topic }]⟩
      none "x" RuleKind.Topic = "y" :=
  resolve_first_match_wins []
    [{ scope_node_name := none, match_pattern := some "x",
       replacement := some "z", kind := RuleKind.Topic }]
    { scope_node_name := none, match_pattern := some "x",
      replacement := some "y", kind := RuleKind.Topic }
    none "x" "y" RuleKind.Topic rfl (by decide)
    (fun x hx => absurd hx (List.not_mem_nil x))

/-- Claim C5: when no rule of the requested kind produces a non-absent remap
result, resolution returns the candidate unchanged; resolution is a total
function into strings, so the no-match case never signals an error. -/
theorem resolve_no_match_is_identity (rules : List Remapping)
    (node_name : Option String) (candidate : String) (kind : RuleKind)
    (h : ∀ x ∈ rules, x.kind = kind → x.remap node_name (some candidate) = none) :
    RemappingResolver.resolve ⟨rules⟩ node_name candidate kind = candidate := by
  simp only [RemappingResolver.resolve]
  rw [scan_filter_none node_name candidate kind rules h]

/-- Claim C5, witness: a resolver holding one topic rule matching "a" leaves
the unrelated candidate "x" unchanged. -/
theorem resolve_no_match_is_identity_witness :
    RemappingResolver.resolve
      ⟨[{ scope_node_name := none, match_pattern := some "a",
          replacement := some "b", kind := RuleKind.Topic }]⟩
      none "x" RuleKind.Topic = "x" :=
  resolve_no_match_is_identity
    [{ scope_node_name := none, match_pattern := some "a",
       replacement := some "b", kind := RuleKind.Topic }]
    none "x" RuleKind.Topic (by decide)
